import Mathlib

/-!
Shallow embedding of `src/lib.rs` of spore-warriors-wasm: the session
orchestrator over four global singleton slots (Game, WarriorContext,
WarriorDeckContext, PVE_BATTLE).  The external engine
(`spore_warriors_core`) and the boundary adapter (`serde_wasm_bindgen`)
are collaborators outside this crate: the engine is modelled as a record
of oracle functions (an `Engine`), its payload types as opaque wrappers,
and a boundary decode result as an `Except String` value supplied by the
caller.  Mutex-guarded execution is modelled as sequential state passing
on a `Slots` record; each operation's lock-acquisition sequence, as read
off the order of the `.lock()` calls in its body, is recorded separately
in `lock_order`.
-/

namespace SporeWarriors

/-- Opaque engine payload: `spore_warriors_core::game::Game`.  The wasm
layer treats it as a black box (its `map`/`controller`/`potion` fields
are only ever handed back to the engine or serialized), so it is one
opaque datum here; engine calls that mutate it (or its controller field)
return a new `Game`. -/
structure Game where
  data : Nat
deriving DecidableEq

/-- Opaque engine payload: `spore_warriors_core::contexts::WarriorContext`. -/
structure WarriorContext where
  data : Nat
deriving DecidableEq

/-- Opaque engine payload: `spore_warriors_core::contexts::WarriorDeckContext`. -/
structure WarriorDeckContext where
  data : Nat
deriving DecidableEq

/-- Opaque engine payload: `spore_warriors_core::battle::pve::MapBattlePVE`. -/
structure MapBattlePVE where
  data : Nat
deriving DecidableEq

/-- Opaque engine payload: `spore_warriors_core::wrappings::Enemy`. -/
structure Enemy where
  data : Nat
deriving DecidableEq

/-- `spore_warriors_core::wrappings::Point` with `u8` coordinates; the wasm
layer does no arithmetic on them, so they are plain naturals. -/
structure Point where
  x : Nat
  y : Nat
deriving DecidableEq

/-- `spore_warriors_core::map::MoveResult`: a closed variant set of which the
wasm layer only distinguishes the `Fight(MapBattlePVE)` case; every other
variant is collapsed into an opaque `other` tag. -/
inductive MoveResult where
  | fight (battle : MapBattlePVE)
  | other (tag : Nat)
deriving DecidableEq

/-- The external engine, as the record of calls `src/lib.rs` makes into
`spore_warriors_core`.  Calls that take `&mut` borrows return the
(possibly mutated) borrowed values alongside their `Result`:
* `game_new` is `Game::new(raw, seed)`;
* `new_session` is `Game::new_session(&mut self, player_id, point, potion)`;
* `move_to` is `Map::move_to(&mut warrior, &mut deck, point, selections, &mut controller)`
  (the controller lives inside the `Game`, so the mutated `Game` is returned);
* `start` is `MapBattlePVE::start(&mut self, &mut controller)`;
* `run` is `MapBattlePVE::run(&mut self, operations, &mut controller)`;
* `peak_target` is `MapBattlePVE::peak_target(&mut self, selection)`;
* `destroy` is `MapBattlePVE::destroy(self)` returning warrior, deck and an
  opaque discarded third component;
* `create` is `MapBattlePVE::create(player, player_deck, enemies)`.
Battle outputs/logs and iteration inputs/selections are opaque naturals. -/
structure Engine where
  game_new : List Nat → Nat → Except String Game
  new_session : Game → Nat → Point → Option (List Nat) →
    Except String (WarriorContext × WarriorDeckContext) × Game
  move_to : Game → WarriorContext → WarriorDeckContext → Point → List Nat →
    Except String MoveResult × Game × WarriorContext × WarriorDeckContext
  start : MapBattlePVE → Game → Except String (Nat × Nat) × MapBattlePVE × Game
  run : MapBattlePVE → List Nat → Game → Except String (Nat × Nat) × MapBattlePVE × Game
  peak_target : MapBattlePVE → Nat → Except String Bool × MapBattlePVE
  destroy : MapBattlePVE → Except String (WarriorContext × WarriorDeckContext × Nat)
  create : WarriorContext → WarriorDeckContext → List Enemy → Except String MapBattlePVE

/-- The four global singleton slots of `src/lib.rs`:
`GAME`, `WARRIOR_CONTEXT`, `WARRIOR_DECK_CONTEXT`, `PVE_BATTLE`. -/
structure Slots where
  game : Option Game
  warrior : Option WarriorContext
  deck : Option WarriorDeckContext
  battle : Option MapBattlePVE
deriving DecidableEq

/-- The process-start state: every slot `Mutex::new(None)`. -/
def init_slots : Slots := { game := none, warrior := none, deck := none, battle := none }

/-- Whether an `Except` is the `ok` case. -/
def isOkE {ε α : Type} : Except ε α → Bool
  | .ok _ => true
  | .error _ => false

/-- Error string of `unwrap_option!(game ...)`: `format!("none {} option", "game")`. -/
def msg_none_game : String := "none game option"

/-- Error string of `unwrap_option!(warrior ...)`. -/
def msg_none_warrior : String := "none warrior option"

/-- Error string of `unwrap_option!(deck ...)`. -/
def msg_none_deck : String := "none deck option"

/-- Error string of `unwrap_option!(battle ...)`. -/
def msg_none_battle : String := "none battle option"

/-- Error string of the `create_game` occupied-slot check (typo as in the source). -/
def msg_game_already : String := "game instance has already been initailized"

/-- Error string of the `create_session` occupied-slot check. -/
def msg_warrior_deck_already : String := "warrior or deck have already been initialized"

/-- Error string of the `move_player` Fight-install conflict check. -/
def msg_battle_already : String := "battle already triggered from map"

/-- Error string of `create_pve_battle` on an empty battle slot. -/
def msg_no_battle : String := "no battle triggered from map"

/-- `create_game(raw_resource_pool, seed)` (src/lib.rs lines 248-256):
fails if `GAME` is occupied, otherwise builds a `Game` through the engine
and installs it. -/
def create_game (eng : Engine) (raw_resource_pool : List Nat) (seed : Nat)
    (s : Slots) : Except String Unit × Slots :=
  if s.game.isSome then
    (.error msg_game_already, s)
  else
    match eng.game_new raw_resource_pool seed with
    | .error e => (.error e, s)
    | .ok game => (.ok (), { s with game := some game })

/-- The `raw_potion` translation inlined in `create_session`
(src/lib.rs lines 89-93): an empty byte slice becomes `None`, a non-empty
one becomes `Some` of its bytes. -/
def potion_arg (raw_potion : List Nat) : Option (List Nat) :=
  if raw_potion.isEmpty then none else some raw_potion

namespace WasmGame

/-- `WasmGame::create_session(player_id, point_x, point_y, raw_potion)`
(src/lib.rs lines 75-102): locks warrior and deck, rejects if either is
occupied, requires a `Game`, asks the engine for a session pair and
installs both halves under the held locks. -/
def create_session (eng : Engine) (player_id point_x point_y : Nat)
    (raw_potion : List Nat) (s : Slots) : Except String Unit × Slots :=
  if s.warrior.isSome || s.deck.isSome then
    (.error msg_warrior_deck_already, s)
  else
    match s.game with
    | none => (.error msg_none_game, s)
    | some game =>
      match eng.new_session game player_id { x := point_x, y := point_y }
          (potion_arg raw_potion) with
      | (.error e, game') => (.error e, { s with game := some game' })
      | (.ok (warrior, deck), game') =>
        (.ok (), { s with game := some game', warrior := some warrior, deck := some deck })

end WasmGame

namespace WasmMap

/-- `WasmMap::move_player(point_x, point_y, selections)` (src/lib.rs lines
144-175): requires game, warrior and deck; delegates to the engine's
`move_to` with mutable borrows (the mutated values stay in their slots);
on a `Fight` result it additionally locks the battle slot, fails if it is
occupied, and installs the produced battle otherwise.  The `u8 → usize`
cast of `selections` is the identity on the modelled naturals. -/
def move_player (eng : Engine) (point_x point_y : Nat) (selections : List Nat)
    (s : Slots) : Except String MoveResult × Slots :=
  match s.game with
  | none => (.error msg_none_game, s)
  | some game =>
    match s.warrior with
    | none => (.error msg_none_warrior, s)
    | some warrior =>
      match s.deck with
      | none => (.error msg_none_deck, s)
      | some deck =>
        match eng.move_to game warrior deck { x := point_x, y := point_y } selections with
        | (.error e, game', warrior', deck') =>
          (.error e, { s with game := some game', warrior := some warrior', deck := some deck' })
        | (.ok move_result, game', warrior', deck') =>
          match move_result with
          | .fight battle =>
            if s.battle.isSome then
              (.error msg_battle_already,
               { s with game := some game', warrior := some warrior', deck := some deck' })
            else
              (.ok (.fight battle),
               { s with game := some game', warrior := some warrior', deck := some deck',
                        battle := some battle })
          | .other tag =>
            (.ok (.other tag),
             { s with game := some game', warrior := some warrior', deck := some deck' })

/-- `WasmMap::create_pve_battle()` (src/lib.rs lines 177-182): only checks
that a battle is installed and hands out a (stateless) handle. -/
def create_pve_battle (s : Slots) : Except String Unit × Slots :=
  if (match s.battle with | none => true | some _ => false) then
    (.error msg_no_battle, s)
  else
    (.ok (), s)

end WasmMap

namespace WasmBattle

/-- `WasmBattle::start()` (src/lib.rs lines 191-205): requires game (for
its controller) and then the battle; runs the engine's opening phase with
both mutably borrowed. -/
def start (eng : Engine) (s : Slots) : Except String (Nat × Nat) × Slots :=
  match s.game with
  | none => (.error msg_none_game, s)
  | some game =>
    match s.battle with
    | none => (.error msg_none_battle, s)
    | some battle =>
      match eng.start battle game with
      | (.error e, battle', game') =>
        (.error e, { s with game := some game', battle := some battle' })
      | (.ok out, battle', game') =>
        (.ok out, { s with game := some game', battle := some battle' })

/-- `WasmBattle::iterate(input)` (src/lib.rs lines 207-222): requires game
then battle, then decodes `input` (the decode result is the `input`
argument here, supplied by the boundary adapter), then advances the
battle through the engine's `run`. -/
def iterate (eng : Engine) (input : Except String (List Nat)) (s : Slots) :
    Except String (Nat × Nat) × Slots :=
  match s.game with
  | none => (.error msg_none_game, s)
  | some game =>
    match s.battle with
    | none => (.error msg_none_battle, s)
    | some battle =>
      match input with
      | .error e => (.error e, s)
      | .ok operations =>
        match eng.run battle operations game with
        | (.error e, battle', game') =>
          (.error e, { s with game := some game', battle := some battle' })
        | (.ok out, battle', game') =>
          (.ok out, { s with game := some game', battle := some battle' })

/-- `WasmBattle::check_peak_target(selection)` (src/lib.rs lines 224-231):
requires only the battle; decodes `selection` and forwards to the
engine's `peak_target` on the mutably borrowed battle. -/
def check_peak_target (eng : Engine) (selection : Except String Nat) (s : Slots) :
    Except String Bool × Slots :=
  match s.battle with
  | none => (.error msg_none_battle, s)
  | some battle =>
    match selection with
    | .error e => (.error e, s)
    | .ok sel =>
      match eng.peak_target battle sel with
      | (r, battle') => (r, { s with battle := some battle' })

/-- `WasmBattle::destroy()` (src/lib.rs lines 233-244): takes the battle out
of its slot (leaving it empty), decomposes it through the engine, and on
success writes the recovered warrior and deck into their slots
unconditionally. -/
def destroy (eng : Engine) (s : Slots) : Except String Unit × Slots :=
  match s.battle with
  | none => (.error msg_none_battle, s)
  | some battle =>
    match eng.destroy battle with
    | .error e => (.error e, { s with battle := none })
    | .ok (warrior, deck, _) =>
      (.ok (), { s with battle := none, warrior := some warrior, deck := some deck })

end WasmBattle

/-- `create_standalone_battle(warrior, warrior_deck, enemies)` (src/lib.rs
lines 259-272): locks the battle slot, decodes the three arguments (the
decode results are supplied by the boundary adapter), builds the battle
through the engine and installs it into the slot unconditionally. -/
def create_standalone_battle (eng : Engine) (warrior_arg : Except String WarriorContext)
    (warrior_deck_arg : Except String WarriorDeckContext)
    (enemies_arg : Except String (List Enemy)) (s : Slots) : Except String Unit × Slots :=
  match warrior_arg with
  | .error e => (.error e, s)
  | .ok player =>
    match warrior_deck_arg with
    | .error e => (.error e, s)
    | .ok player_deck =>
      match enemies_arg with
      | .error e => (.error e, s)
      | .ok enemies =>
        match eng.create player player_deck enemies with
        | .error e => (.error e, s)
        | .ok battle => (.ok (), { s with battle := some battle })

/-- Names of the four global slot mutexes. -/
inductive SlotName where
  | game
  | warrior
  | deck
  | battle
deriving DecidableEq

/-- The public operations of `src/lib.rs` (everything carrying a
`#[wasm_bindgen]` entry point). -/
inductive Op where
  | get_potion
  | create_session
  | get_profile
  | get_warrior_profile
  | get_warrior_deck_profile
  | peak_movement
  | move_player
  | create_pve_battle
  | battle_start
  | battle_iterate
  | battle_check_peak_target
  | battle_destroy
  | create_game
  | create_standalone_battle
  | generate_resource_binary
deriving DecidableEq

/-- The sequence of slot locks each operation acquires, in the order of the
`.lock()` calls in its body in `src/lib.rs` (for `move_player`, the battle
lock is acquired last, and only on the Fight branch;
`generate_resource_binary` touches no slot). -/
def lock_order : Op → List SlotName
  | .get_potion => [.game]
  | .create_session => [.warrior, .deck, .game]
  | .get_profile => [.game]
  | .get_warrior_profile => [.warrior]
  | .get_warrior_deck_profile => [.deck]
  | .peak_movement => [.game, .warrior]
  | .move_player => [.game, .warrior, .deck, .battle]
  | .create_pve_battle => [.battle]
  | .battle_start => [.game, .battle]
  | .battle_iterate => [.game, .battle]
  | .battle_check_peak_target => [.battle]
  | .battle_destroy => [.battle, .warrior, .deck]
  | .create_game => [.game]
  | .create_standalone_battle => [.battle]
  | .generate_resource_binary => []

/-- The fixed global acquisition order claimed by the spec:
Game, then Warrior, then WarriorDeck, then Battle. -/
def global_lock_order : List SlotName := [.game, .warrior, .deck, .battle]

/-- Boolean ordered-subsequence test. -/
def is_subseq : List SlotName → List SlotName → Bool
  | [], _ => true
  | _ :: _, [] => false
  | a :: as, b :: bs => if a = b then is_subseq as bs else is_subseq (a :: as) bs

/-- The states reachable from process start through the state-mutating
operations of the module, with an arbitrary engine and arbitrary host
arguments at every step. -/
inductive Reachable : Slots → Prop where
  | init : Reachable init_slots
  | step_create_game (eng : Engine) (raw : List Nat) (seed : Nat) {s : Slots} :
      Reachable s → Reachable (create_game eng raw seed s).2
  | step_create_session (eng : Engine) (pid px py : Nat) (raw : List Nat) {s : Slots} :
      Reachable s → Reachable (WasmGame.create_session eng pid px py raw s).2
  | step_move_player (eng : Engine) (px py : Nat) (sel : List Nat) {s : Slots} :
      Reachable s → Reachable (WasmMap.move_player eng px py sel s).2
  | step_standalone (eng : Engine) (w : Except String WarriorContext)
      (d : Except String WarriorDeckContext) (es : Except String (List Enemy)) {s : Slots} :
      Reachable s → Reachable (create_standalone_battle eng w d es s).2
  | step_start (eng : Engine) {s : Slots} :
      Reachable s → Reachable (WasmBattle.start eng s).2
  | step_iterate (eng : Engine) (input : Except String (List Nat)) {s : Slots} :
      Reachable s → Reachable (WasmBattle.iterate eng input s).2
  | step_peek (eng : Engine) (sel : Except String Nat) {s : Slots} :
      Reachable s → Reachable (WasmBattle.check_peak_target eng sel s).2
  | step_destroy (eng : Engine) {s : Slots} :
      Reachable s → Reachable (WasmBattle.destroy eng s).2

/-- A concrete game value used by the demo engines. -/
def demoGame : Game := { data := 0 }

/-- A concrete warrior value used by the demo engines. -/
def demoWarrior : WarriorContext := { data := 1 }

/-- A concrete deck value used by the demo engines. -/
def demoDeck : WarriorDeckContext := { data := 2 }

/-- A concrete battle value used by the demo engines. -/
def demoBattle : MapBattlePVE := { data := 3 }

/-- A concrete engine oracle whose every call succeeds; its `move_to`
always reports a Fight carrying `demoBattle`. -/
def demoEngine : Engine where
  game_new := fun _ _ => .ok demoGame
  new_session := fun g _ _ _ => (.ok (demoWarrior, demoDeck), g)
  move_to := fun g w d _ _ => (.ok (.fight demoBattle), g, w, d)
  start := fun b g => (.ok (10, 11), b, g)
  run := fun b _ g => (.ok (12, 13), b, g)
  peak_target := fun b _ => (.ok true, b)
  destroy := fun _ => .ok (demoWarrior, demoDeck, 0)
  create := fun _ _ _ => .ok demoBattle

/-- A concrete engine oracle whose battle decomposition fails. -/
def failEngine : Engine where
  game_new := fun _ _ => .ok demoGame
  new_session := fun g _ _ _ => (.ok (demoWarrior, demoDeck), g)
  move_to := fun g w d _ _ => (.ok (.fight demoBattle), g, w, d)
  start := fun b g => (.ok (10, 11), b, g)
  run := fun b _ g => (.ok (12, 13), b, g)
  peak_target := fun b _ => (.ok true, b)
  destroy := fun _ => .error "battle decompose failed"
  create := fun _ _ _ => .ok demoBattle

/-- State after `create_game` on the fresh process state, demo engine. -/
def s_after_game : Slots := (create_game demoEngine [] 0 init_slots).2

/-- State after `create_session` following `create_game`, demo engine. -/
def s_after_session : Slots := (WasmGame.create_session demoEngine 1 0 0 [] s_after_game).2

/-- State after a Fight-producing `move_player` following `create_session`,
demo engine. -/
def s_after_fight : Slots := (WasmMap.move_player demoEngine 0 0 [] s_after_session).2

/-- A state holding a live battle and nothing else. -/
def s_live_battle : Slots :=
  { game := some demoGame, warrior := none, deck := none, battle := some demoBattle }

/-- A state holding a live battle while the warrior and deck slots are also
occupied (with values distinct from what the demo engine returns). -/
def s_destroy_conflict : Slots :=
  { game := some demoGame, warrior := some { data := 55 }, deck := some { data := 66 },
    battle := some demoBattle }

/-- A state whose battle slot is occupied by a battle distinct from
`demoBattle`. -/
def s_with_battle : Slots :=
  { game := none, warrior := none, deck := none, battle := some { data := 77 } }

/-- C1 (counterexample): calling `create_standalone_battle` with a Battle
already installed does not fail with Conflict — it succeeds, and the
pre-existing Battle (`data := 77`) is replaced by the newly constructed
one, contradicting the claim that the call fails and the old Battle is
left in place. -/
theorem create_standalone_battle_overwrites_cex :
    create_standalone_battle demoEngine (.ok demoWarrior) (.ok demoDeck) (.ok [])
        s_with_battle =
      (.ok (), { s_with_battle with battle := some demoBattle }) ∧
    (create_standalone_battle demoEngine (.ok demoWarrior) (.ok demoDeck) (.ok [])
        s_with_battle).2.battle ≠ some { data := 77 } := by
  constructor
  · rfl
  · intro h
    simp only [create_standalone_battle, demoEngine, s_with_battle] at h
    exact absurd (Option.some.inj h) (by decide)

/-- C1 (amended): `create_standalone_battle` never inspects the Battle slot:
whenever all three arguments decode and the engine constructs a battle, the
call succeeds and installs that battle, silently replacing whatever the
slot held before. -/
theorem create_standalone_battle_installs (eng : Engine) (w : WarriorContext)
    (d : WarriorDeckContext) (es : List Enemy) (b : MapBattlePVE) (s : Slots)
    (hc : eng.create w d es = .ok b) :
    create_standalone_battle eng (.ok w) (.ok d) (.ok es) s =
      (.ok (), { s with battle := some b }) := by
  simp [create_standalone_battle, hc]

/-- C1 (witness): the amended statement at a concrete occupied state. -/
theorem create_standalone_battle_installs_witness :
    create_standalone_battle demoEngine (.ok demoWarrior) (.ok demoDeck) (.ok [])
        s_live_battle =
      (.ok (), { s_live_battle with battle := some demoBattle }) :=
  create_standalone_battle_installs demoEngine demoWarrior demoDeck [] demoBattle
    s_live_battle rfl

/-- C3 (counterexample): `destroy` on a live Battle while the warrior and
deck slots are still occupied does not fail with AlreadyInitialized — it
succeeds and silently overwrites both occupied slots with the values
recovered from the battle. -/
theorem destroy_no_already_initialized_cex :
    WasmBattle.destroy demoEngine s_destroy_conflict =
      (.ok (), { game := some demoGame, warrior := some demoWarrior,
                 deck := some demoDeck, battle := none }) ∧
    isOkE (WasmBattle.destroy demoEngine s_destroy_conflict).1 = true := by
  exact ⟨rfl, rfl⟩

/-- C3 (amended): when the engine decomposition succeeds, `destroy` writes
the recovered warrior and deck into their slots unconditionally — also when
one of them is already occupied — and never fails with AlreadyInitialized. -/
theorem destroy_overwrites (eng : Engine) (s : Slots) (b : MapBattlePVE)
    (w : WarriorContext) (d : WarriorDeckContext) (disc : Nat)
    (hb : s.battle = some b) (he : eng.destroy b = .ok (w, d, disc)) :
    WasmBattle.destroy eng s =
      (.ok (), { s with battle := none, warrior := some w, deck := some d }) := by
  simp [WasmBattle.destroy, hb, he]

/-- C3 (witness): the amended statement at a concrete state whose warrior
and deck slots are occupied. -/
theorem destroy_overwrites_witness :
    WasmBattle.destroy demoEngine s_destroy_conflict =
      (.ok (),
       { s_destroy_conflict with
           battle := none, warrior := some demoWarrior, deck := some demoDeck }) :=
  destroy_overwrites demoEngine s_destroy_conflict demoBattle demoWarrior demoDeck 0 rfl rfl

/-- C10: when `destroy` finds a live Battle but the engine decomposition
fails, the error is returned with the Battle slot already emptied (the
battle was taken out before the engine call and is not restored) and the
warrior and deck slots untouched. -/
theorem destroy_engine_failure (eng : Engine) (s : Slots) (b : MapBattlePVE)
    (e : String) (hb : s.battle = some b) (he : eng.destroy b = .error e) :
    WasmBattle.destroy eng s = (.error e, { s with battle := none }) := by
  simp [WasmBattle.destroy, hb, he]

/-- C10 (witness): a concrete live battle destroyed under the failing
engine: the error surfaces, the battle slot is empty, warrior and deck
slots are exactly as before. -/
theorem destroy_engine_failure_witness :
    WasmBattle.destroy failEngine s_live_battle =
      (.error "battle decompose failed", { s_live_battle with battle := none }) :=
  destroy_engine_failure failEngine s_live_battle demoBattle "battle decompose failed" rfl rfl

/-- C2 (counterexample): a state reached by `create_game`, `create_session`
and a Fight-producing `move_player` has the Battle slot occupied while the
WarriorContext and WarriorDeckContext slots are BOTH still populated:
`move_player` only borrows them mutably and never takes them out, so the
claimed invariant fails on a reachable state. -/
theorem battle_live_warrior_slots_occupied_cex :
    Reachable s_after_fight ∧
    s_after_fight.battle.isSome = true ∧
    s_after_fight.warrior.isSome = true ∧
    s_after_fight.deck.isSome = true := by
  refine ⟨?_, by decide, by decide, by decide⟩
  have h0 : Reachable init_slots := Reachable.init
  have h1 : Reachable s_after_game :=
    Reachable.step_create_game demoEngine [] 0 h0
  have h2 : Reachable s_after_session :=
    Reachable.step_create_session demoEngine 1 0 0 [] h1
  exact Reachable.step_move_player demoEngine 0 0 [] h2

/-- C2 (amended): `move_player` never changes whether the warrior and deck
slots are occupied (in particular, after it installs a Fight-produced
Battle they are still populated — ownership is not moved out of the
slots), and a successful `battle.destroy` (over)writes both slots with the
values recovered from the battle. -/
theorem move_player_keeps_warrior_slots :
    (∀ (eng : Engine) (px py : Nat) (sel : List Nat) (s : Slots),
      (WasmMap.move_player eng px py sel s).2.warrior.isSome = s.warrior.isSome ∧
      (WasmMap.move_player eng px py sel s).2.deck.isSome = s.deck.isSome) ∧
    (∀ (eng : Engine) (s : Slots) (b : MapBattlePVE) (w : WarriorContext)
        (d : WarriorDeckContext) (disc : Nat),
      s.battle = some b → eng.destroy b = .ok (w, d, disc) →
      (WasmBattle.destroy eng s).2.warrior = some w ∧
      (WasmBattle.destroy eng s).2.deck = some d) := by
  constructor
  · intro eng px py sel s
    rcases hg : s.game with _ | g
    · simp [WasmMap.move_player, hg]
    rcases hw : s.warrior with _ | w
    · simp [WasmMap.move_player, hg, hw]
    rcases hd : s.deck with _ | d
    · simp [WasmMap.move_player, hg, hw, hd]
    rcases he : eng.move_to g w d { x := px, y := py } sel with ⟨r, g', w', d'⟩
    rcases r with e | mr
    · simp [WasmMap.move_player, hg, hw, hd, he]
    rcases mr with b | tag
    · by_cases hb : s.battle.isSome = true
      · simp [WasmMap.move_player, hg, hw, hd, he, hb]
      · simp [WasmMap.move_player, hg, hw, hd, he, hb]
    · simp [WasmMap.move_player, hg, hw, hd, he]
  · intro eng s b w d disc hb he
    simp [WasmBattle.destroy, hb, he]

/-- C2 (witness): the amended statement applied at the concrete post-Fight
state and at a concrete live-battle destroy. -/
theorem move_player_keeps_warrior_slots_witness :
    (s_after_fight.warrior.isSome = s_after_session.warrior.isSome ∧
     s_after_fight.deck.isSome = s_after_session.deck.isSome) ∧
    ((WasmBattle.destroy demoEngine s_live_battle).2.warrior = some demoWarrior ∧
     (WasmBattle.destroy demoEngine s_live_battle).2.deck = some demoDeck) :=
  ⟨move_player_keeps_warrior_slots.1 demoEngine 0 0 [] s_after_session,
   move_player_keeps_warrior_slots.2 demoEngine s_live_battle demoBattle demoWarrior
     demoDeck 0 rfl rfl⟩

/-- C4: with Game, WarriorContext and WarriorDeckContext present and the
engine's `move_to` succeeding, `move_player` (a) on a non-Fight result
returns it and never touches the Battle slot, (b) on a Fight result with
an empty Battle slot installs exactly the produced battle, and (c) on a
Fight result with an occupied Battle slot fails with the Conflict message
while the engine's mutations of game, warrior and deck remain applied and
the old battle stays in place (no rollback). -/
theorem move_player_fight_cases (eng : Engine) (px py : Nat) (sel : List Nat)
    (s : Slots) (g g' : Game) (w w' : WarriorContext) (d d' : WarriorDeckContext)
    (mr : MoveResult) (hg : s.game = some g) (hw : s.warrior = some w)
    (hd : s.deck = some d)
    (he : eng.move_to g w d { x := px, y := py } sel = (.ok mr, g', w', d')) :
    ((∀ b, mr ≠ .fight b) →
      WasmMap.move_player eng px py sel s =
        (.ok mr, { s with game := some g', warrior := some w', deck := some d' })) ∧
    (∀ b, mr = .fight b → s.battle = none →
      WasmMap.move_player eng px py sel s =
        (.ok mr,
         { s with
             game := some g', warrior := some w', deck := some d', battle := some b })) ∧
    (∀ b, mr = .fight b → s.battle.isSome = true →
      WasmMap.move_player eng px py sel s =
        (.error msg_battle_already,
         { s with game := some g', warrior := some w', deck := some d' })) := by
  refine ⟨?_, ?_, ?_⟩
  · intro hnf
    rcases mr with b | tag
    · exact absurd rfl (hnf b)
    · simp [WasmMap.move_player, hg, hw, hd, he]
  · intro b hb hbn
    subst hb
    simp [WasmMap.move_player, hg, hw, hd, he, hbn]
  · intro b hb hbs
    subst hb
    simp [WasmMap.move_player, hg, hw, hd, he, hbs]

/-- C4 (witness): the Fight-with-empty-slot case at the concrete post-session
state, and the Fight-with-occupied-slot Conflict case at the post-Fight
state, both discharged concretely. -/
theorem move_player_fight_cases_witness :
    WasmMap.move_player demoEngine 0 0 [] s_after_session =
      (.ok (.fight demoBattle),
       { s_after_session with
           game := some demoGame, warrior := some demoWarrior, deck := some demoDeck,
           battle := some demoBattle }) ∧
    WasmMap.move_player demoEngine 0 0 [] s_after_fight =
      (.error msg_battle_already,
       { s_after_fight with
           game := some demoGame, warrior := some demoWarrior, deck := some demoDeck }) :=
  ⟨(move_player_fight_cases demoEngine 0 0 [] s_after_session demoGame demoGame
      demoWarrior demoWarrior demoDeck demoDeck (.fight demoBattle) rfl rfl rfl
      rfl).2.1 demoBattle rfl rfl,
   (move_player_fight_cases demoEngine 0 0 [] s_after_fight demoGame demoGame
      demoWarrior demoWarrior demoDeck demoDeck (.fight demoBattle) rfl rfl rfl
      rfl).2.2 demoBattle rfl rfl⟩

/-- C5: `create_session` updates the warrior and deck slots atomically: on
success both end up populated, and on any failure (occupied pair, missing
Game, engine failure) both are left exactly as they were — never exactly
one of the two. -/
theorem create_session_atomic (eng : Engine) (pid px py : Nat) (raw : List Nat)
    (s : Slots) :
    (isOkE (WasmGame.create_session eng pid px py raw s).1 = true →
      (WasmGame.create_session eng pid px py raw s).2.warrior.isSome = true ∧
      (WasmGame.create_session eng pid px py raw s).2.deck.isSome = true) ∧
    (isOkE (WasmGame.create_session eng pid px py raw s).1 = false →
      (WasmGame.create_session eng pid px py raw s).2.warrior = s.warrior ∧
      (WasmGame.create_session eng pid px py raw s).2.deck = s.deck) := by
  by_cases hwd : (s.warrior.isSome || s.deck.isSome) = true
  · simp [WasmGame.create_session, hwd, isOkE]
  · rcases hg : s.game with _ | g
    · simp [WasmGame.create_session, hwd, hg, isOkE]
    · rcases he : eng.new_session g pid { x := px, y := py } (potion_arg raw) with ⟨r, g'⟩
      rcases r with e | ⟨w, d⟩
      · simp [WasmGame.create_session, hwd, hg, he, isOkE]
      · simp [WasmGame.create_session, hwd, hg, he, isOkE]

/-- C5 (witness): the success half at a concrete fresh-game state and the
failure half at a state whose pair is already populated. -/
theorem create_session_atomic_witness :
    ((WasmGame.create_session demoEngine 1 0 0 [] s_after_game).2.warrior.isSome = true ∧
     (WasmGame.create_session demoEngine 1 0 0 [] s_after_game).2.deck.isSome = true) ∧
    ((WasmGame.create_session demoEngine 1 0 0 [] s_after_session).2.warrior =
        s_after_session.warrior ∧
     (WasmGame.create_session demoEngine 1 0 0 [] s_after_session).2.deck =
        s_after_session.deck) :=
  ⟨(create_session_atomic demoEngine 1 0 0 [] s_after_game).1 rfl,
   (create_session_atomic demoEngine 1 0 0 [] s_after_session).2 rfl⟩

/-- C6: each of the four battle-scoped operations (`start`, `iterate`,
`check_peak_target`, `destroy`) invoked while the Battle slot is empty
returns an error and leaves the whole slot state (all four slots) exactly
as it was. -/
theorem battle_ops_no_battle (eng : Engine) (input : Except String (List Nat))
    (sel : Except String Nat) (s : Slots) (hb : s.battle = none) :
    (isOkE (WasmBattle.start eng s).1 = false ∧ (WasmBattle.start eng s).2 = s) ∧
    (isOkE (WasmBattle.iterate eng input s).1 = false ∧
      (WasmBattle.iterate eng input s).2 = s) ∧
    (isOkE (WasmBattle.check_peak_target eng sel s).1 = false ∧
      (WasmBattle.check_peak_target eng sel s).2 = s) ∧
    (isOkE (WasmBattle.destroy eng s).1 = false ∧ (WasmBattle.destroy eng s).2 = s) := by
  rcases hg : s.game with _ | g <;>
    simp [WasmBattle.start, WasmBattle.iterate, WasmBattle.check_peak_target,
      WasmBattle.destroy, hg, hb, isOkE]

/-- C6 (witness): the four no-battle error/frame facts at the fresh process
state. -/
theorem battle_ops_no_battle_witness :
    (isOkE (WasmBattle.start demoEngine init_slots).1 = false ∧
      (WasmBattle.start demoEngine init_slots).2 = init_slots) ∧
    (isOkE (WasmBattle.iterate demoEngine (.ok []) init_slots).1 = false ∧
      (WasmBattle.iterate demoEngine (.ok []) init_slots).2 = init_slots) ∧
    (isOkE (WasmBattle.check_peak_target demoEngine (.ok 0) init_slots).1 = false ∧
      (WasmBattle.check_peak_target demoEngine (.ok 0) init_slots).2 = init_slots) ∧
    (isOkE (WasmBattle.destroy demoEngine init_slots).1 = false ∧
      (WasmBattle.destroy demoEngine init_slots).2 = init_slots) :=
  battle_ops_no_battle demoEngine (.ok []) (.ok 0) init_slots rfl

/-- C7 (counterexample): `create_session` acquires its locks in the order
Warrior, WarriorDeck, Game — not an ordered subsequence of the claimed
fixed global order Game, Warrior, WarriorDeck, Battle. -/
theorem lock_order_create_session_cex :
    is_subseq (lock_order Op.create_session) global_lock_order = false := by
  decide

/-- C7 (amended): every operation except `create_session` and
`battle.destroy` acquires its slot locks in an ordered subsequence of
Game, Warrior, WarriorDeck, Battle; `create_session` instead acquires
Warrior, WarriorDeck, Game, and `battle.destroy` acquires Battle,
Warrior, WarriorDeck. -/
theorem lock_order_amended :
    (∀ op : Op, op ≠ Op.create_session → op ≠ Op.battle_destroy →
      is_subseq (lock_order op) global_lock_order = true) ∧
    lock_order Op.create_session = [SlotName.warrior, SlotName.deck, SlotName.game] ∧
    lock_order Op.battle_destroy = [SlotName.battle, SlotName.warrior, SlotName.deck] := by
  refine ⟨?_, rfl, rfl⟩
  intro op h1 h2
  cases op <;> first
    | rfl
    | exact absurd rfl h1
    | exact absurd rfl h2

/-- C7 (witness): the amended order fact applied to `move_player`. -/
theorem lock_order_amended_witness :
    is_subseq (lock_order Op.move_player) global_lock_order = true :=
  lock_order_amended.1 Op.move_player (by decide) (by decide)

/-- C8: a Battle installed by `create_standalone_battle` while the Game slot
is empty leaves the Game slot empty; on any such state,
`check_peak_target` needs no Game and answers through the engine, while
`start` and `iterate` both fail with the none-game error before the
battle state is touched (the state is returned unchanged). -/
theorem standalone_battle_without_game (eng : Engine) (w : WarriorContext)
    (d : WarriorDeckContext) (es : List Enemy) (b b' : MapBattlePVE) (v : Nat)
    (ans : Bool) (input : Except String (List Nat)) (s : Slots)
    (hg : s.game = none) (hc : eng.create w d es = .ok b) :
    (create_standalone_battle eng (.ok w) (.ok d) (.ok es) s =
        (.ok (), { s with battle := some b }) ∧
      ({ s with battle := some b } : Slots).game = none) ∧
    (∀ t : Slots, t.game = none → t.battle = some b →
      WasmBattle.start eng t = (.error msg_none_game, t) ∧
      WasmBattle.iterate eng input t = (.error msg_none_game, t) ∧
      (eng.peak_target b v = (.ok ans, b') →
        WasmBattle.check_peak_target eng (.ok v) t =
          (.ok ans, { t with battle := some b' }))) := by
  refine ⟨⟨?_, ?_⟩, ?_⟩
  · simp [create_standalone_battle, hc]
  · simpa using hg
  · intro t ht hb
    refine ⟨?_, ?_, ?_⟩
    · simp [WasmBattle.start, ht]
    · simp [WasmBattle.iterate, ht]
    · intro hp
      simp [WasmBattle.check_peak_target, hb, hp]

/-- C8 (witness): on the concrete gameless state holding `demoBattle`,
`start` fails with the none-game error and the state is unchanged. -/
theorem standalone_battle_without_game_witness :
    WasmBattle.start demoEngine { init_slots with battle := some demoBattle } =
      (.error msg_none_game, { init_slots with battle := some demoBattle }) :=
  ((standalone_battle_without_game demoEngine demoWarrior demoDeck [] demoBattle
      demoBattle 0 true (.ok []) init_slots rfl rfl).2
    { init_slots with battle := some demoBattle } rfl rfl).1

/-- C9: the potion translation of `create_session` maps the empty byte
slice to `none`, any non-empty slice to `some` of exactly those bytes,
never produces an empty-but-present payload, and `create_session` invokes
the engine's `new_session` with exactly `potion_arg raw_potion`. -/
theorem potion_arg_semantics :
    potion_arg [] = none ∧
    (∀ raw : List Nat, raw ≠ [] → potion_arg raw = some raw) ∧
    (∀ raw : List Nat, potion_arg raw ≠ some []) ∧
    (∀ (eng : Engine) (pid px py : Nat) (raw : List Nat) (s : Slots) (g : Game),
      s.warrior = none → s.deck = none → s.game = some g →
      WasmGame.create_session eng pid px py raw s =
        match eng.new_session g pid { x := px, y := py } (potion_arg raw) with
        | (.error e, g') => (.error e, { s with game := some g' })
        | (.ok (w, d), g') =>
          (.ok (), { s with game := some g', warrior := some w, deck := some d })) := by
  refine ⟨rfl, ?_, ?_, ?_⟩
  · intro raw h
    cases raw with
    | nil => exact absurd rfl h
    | cons a l => rfl
  · intro raw h
    cases raw with
    | nil => simp [potion_arg] at h
    | cons a l => simp [potion_arg] at h
  · intro eng pid px py raw s g hw hd hg
    rcases he : eng.new_session g pid { x := px, y := py } (potion_arg raw) with ⟨r, g'⟩
    rcases r with e | ⟨w, d⟩ <;> simp [WasmGame.create_session, hw, hd, hg, he]

/-- C9 (witness): a concrete non-empty potion is passed through as `some`,
and `create_session` on a fresh game runs the engine with it. -/
theorem potion_arg_semantics_witness :
    potion_arg [9] = some [9] ∧
    WasmGame.create_session demoEngine 1 0 0 [9] s_after_game =
      (.ok (),
       { s_after_game with
           game := some demoGame, warrior := some demoWarrior, deck := some demoDeck }) :=
  ⟨potion_arg_semantics.2.1 [9] (by decide),
   potion_arg_semantics.2.2.2 demoEngine 1 0 0 [9] s_after_game demoGame rfl rfl rfl⟩

end SporeWarriors
